import Mathlib

/-!
Verification of the multi-engine execution orchestrator of `colab_logica.py`
(the Logica Colab integration).  The module-level mutable globals
(`PROJECT`, `DB_CONNECTION`, `USER_AUTHENTICATED`, `TABULATED_OUTPUT`) are
embedded as an explicit state record; the external collaborators
(`google.colab.auth`, the BigQuery client, `pandas.read_sql`, the sqlite
connection, `input()`) are embedded as oracles or trace events, since the
core never looks inside their results.  `parse.SplitRaw` (from
`parser_py/parse.py`) and `concertina_lib.ExecuteLogicaProgram` (from
`common/concertina_lib.py`) are not part of the given source tree and are
modelled from the specification, as marked in their doc comments.
-/

namespace ColabLogica

/-- Observable side effects of the module: the authentication handshake
(`auth.authenticate_user()`), the `input()` prompt for a project id, a
statement executed on the database connection (`DB_CONNECTION.execute(s)`),
a statement read through `pandas.read_sql(s, DB_CONNECTION)`, and a BigQuery
query (`client.query(sql)`). -/
inductive Event where
  | authHandshake : Event
  | promptProject : Event
  | connExec : String → Event
  | connRead : String → Event
  | bqQuery : String → Event
deriving DecidableEq, Repr

/-- Errors (Python exceptions) that the embedded operations can raise. -/
inductive Err where
  | unsupportedEngine : String → Err
  | indexError : Err
  | missingConnection : Err
deriving DecidableEq, Repr

/-- The module-level globals of `colab_logica.py` (lines 41-47). -/
structure GState where
  PROJECT : Option String
  DB_CONNECTION : Option Nat
  USER_AUTHENTICATED : Bool
  TABULATED_OUTPUT : Bool
deriving DecidableEq, Repr

/-- State of the module at import time (lines 41-47). -/
def initState : GState :=
  { PROJECT := none, DB_CONNECTION := none,
    USER_AUTHENTICATED := false, TABULATED_OUTPUT := true }

/-- `SetProject` (lines 49-51). -/
def SetProject (project : String) (st : GState) : GState :=
  { st with PROJECT := some project }

/-- `SetDbConnection` (lines 53-55). -/
def SetDbConnection (connection : Nat) (st : GState) : GState :=
  { st with DB_CONNECTION := some connection }

/-- `SetTabulatedOutput` (lines 70-72). -/
def SetTabulatedOutput (tabulated_output : Bool) (st : GState) : GState :=
  { st with TABULATED_OUTPUT := tabulated_output }

/-- `EnsureAuthenticatedUser` (lines 57-68).  `input` is the value the
`input()` prompt would return.  The function returns the new global state
and the list of side effects performed, in order: if `USER_AUTHENTICATED`
is already set it does nothing; otherwise it runs the handshake, then
prompts for and stores a project id exactly when `PROJECT is None`, and
finally sets `USER_AUTHENTICATED = True`. -/
def EnsureAuthenticatedUser (input : String) (st : GState) : GState × List Event :=
  if st.USER_AUTHENTICATED then (st, [])
  else
    match st.PROJECT with
    | none =>
        ({ st with PROJECT := some input, USER_AUTHENTICATED := true },
         [Event.authHandshake, Event.promptProject])
    | some _ =>
        ({ st with USER_AUTHENTICATED := true }, [Event.authHandshake])

/-- The single-quote character (code 39), the string-literal delimiter
respected by the statement splitter. -/
def quoteChar : Char := Char.ofNat 39

/-- Modelled from the spec: the character scan of `parse.SplitRaw`
(`parser_py/parse.py`, not under `src/`).  Spec 4.2: splits on top-level
occurrences of the delimiter while respecting quoted string literals; the
pieces are returned raw.  `inQ` records whether the scan is inside a quoted
literal and `acc` holds the reversed characters of the current piece. -/
def splitRawAux (d : Char) : List Char → Bool → List Char → List (List Char)
  | [], _, acc => [acc.reverse]
  | c :: cs, inQ, acc =>
    if inQ = false ∧ c = d then
      acc.reverse :: splitRawAux d cs false []
    else if c = quoteChar then
      splitRawAux d cs (!inQ) (c :: acc)
    else
      splitRawAux d cs inQ (c :: acc)

/-- Modelled from the spec: `parse.SplitRaw` (`parser_py/parse.py` is not
under `src/`).  Splits a SQL script into the ordered sequence of its
top-level delimiter-separated pieces, quote-aware, without trimming. -/
def SplitRaw (s : String) (d : Char) : List String :=
  (splitRawAux d s.data false []).map String.mk

/-- Concatenating a sequence of statements with the delimiter character. -/
def JoinStatements (d : Char) : List String → String
  | [] => ""
  | [s] => s
  | s :: s2 :: rest => s ++ String.singleton d ++ JoinStatements d (s2 :: rest)

/-- Character-level version of `JoinStatements`. -/
def joinWith (d : Char) : List (List Char) → List Char
  | [] => []
  | [l] => l
  | l :: l2 :: ls => l ++ d :: joinWith d (l2 :: ls)

/-- Number of top-level (outside-quotes) occurrences of the delimiter;
an input with none is a single-statement script. -/
def topLevelCount (d : Char) : List Char → Bool → Nat
  | [], _ => 0
  | c :: cs, inQ =>
    if inQ = false ∧ c = d then topLevelCount d cs false + 1
    else if c = quoteChar then topLevelCount d cs (!inQ)
    else topLevelCount d cs inQ

/-- `pandas.read_sql(sql, DB_CONNECTION)`: the collaborator executes the
statement on the configured connection and returns its result table (the
table is identified by the statement that produced it); with no connection
configured it raises instead of executing anything. -/
def readSql (sql : String) (conn : Option Nat) : Except Err String × List Event :=
  match conn with
  | none => (Except.error Err.missingConnection, [])
  | some _ => (Except.ok sql, [Event.connRead sql])

/-- The `for s in statements[:-2]: cursor = DB_CONNECTION.execute(s)` loop
of the sqlite branch (lines 115-116): each statement is executed on the
connection for its side effect and the result is discarded. -/
def execAll (conn : Option Nat) : List String → Except Err Unit × List Event
  | [] => (Except.ok (), [])
  | s :: rest =>
    match conn with
    | none => (Except.error Err.missingConnection, [])
    | some _ =>
        ((execAll conn rest).1, Event.connExec s :: (execAll conn rest).2)

/-- The sqlite branch of `RunSQL` (lines 113-117): split the script on
semicolons, execute `statements[:-2]` for effect, then return the result of
reading `statements[-2]`.  As in Python, `statements[:-2]` is empty when
the list has fewer than two elements, and evaluating `statements[-2]` on
such a list raises `IndexError` before `pandas.read_sql` is called. -/
def sqliteRun (conn : Option Nat) (sql : String) : Except Err String × List Event :=
  let statements := SplitRaw sql ';'
  let e := execAll conn (statements.take (statements.length - 2))
  match e.1 with
  | Except.error err => (Except.error err, e.2)
  | Except.ok _ =>
    if 2 ≤ statements.length then
      let q := statements.getD (statements.length - 2) ""
      ((readSql q conn).1, e.2 ++ (readSql q conn).2)
    else (Except.error Err.indexError, e.2)

/-- `RunSQL` (lines 106-120).  Dispatches on the engine string:
`bigquery` authenticates and queries the client, `psql` reads through
`pandas.read_sql` on the configured connection, `sqlite` runs the split
statement sequence, and anything else raises the unsupported-engine
exception with the message of lines 119-120.  Returns the result (the
returned table is identified by the query that produced it), the new
global state, and the trace of side effects. -/
def RunSQL (input sql engine : String) (st : GState) :
    Except Err String × GState × List Event :=
  if engine = "bigquery" then
    let r := EnsureAuthenticatedUser input st
    (Except.ok sql, r.1, r.2 ++ [Event.bqQuery sql])
  else if engine = "psql" then
    ((readSql sql st.DB_CONNECTION).1, st, (readSql sql st.DB_CONNECTION).2)
  else if engine = "sqlite" then
    ((sqliteRun st.DB_CONNECTION sql).1, st, (sqliteRun st.DB_CONNECTION sql).2)
  else
    (Except.error (Err.unsupportedEngine
      "Logica only supports BigQuery, PostgreSQL and SQLite for now."), st, [])

/-- Python `str.strip()`: drop leading and trailing whitespace. -/
def pyStrip (s : String) : String :=
  String.mk
    (((s.data.dropWhile Char.isWhitespace).reverse.dropWhile Char.isWhitespace).reverse)

/-- Character-level naive split (Python `str.split(d)`), not quote-aware. -/
def pySplitAux (d : Char) : List Char → List Char → List (List Char)
  | [], acc => [acc.reverse]
  | c :: cs, acc =>
    if c = d then acc.reverse :: pySplitAux d cs []
    else pySplitAux d cs (c :: acc)

/-- Python `str.split(d)` on a string. -/
def pySplit (s : String) (d : Char) : List String :=
  (pySplitAux d s.data []).map String.mk

/-- `ParseList` (lines 97-103): strip the magic line; an empty line gives no
predicates, otherwise split on commas and strip each name. -/
def ParseList (line : String) : List String :=
  let l := pyStrip line
  if l = "" then [] else (pySplit l ',').map pyStrip

/-- Modelled from the spec: `concertina_lib.ExecuteLogicaProgram`
(`common/concertina_lib.py` is not under `src/`).  Spec 4.4 steps 4-6: the
queued execution units are executed strictly in order; a unit whose
execution succeeds (`execOk u = some t`) contributes its result table to
the returned map under its predicate name, a unit whose execution fails
(`execOk u = none`) is recorded in the per-predicate error set and the
remaining units are still executed.  Returns (result map, error set,
trace of units executed, in execution order). -/
def ExecuteLogicaProgram (execOk : String → Option String) :
    List String → List (String × String) × List String × List String
  | [] => ([], [], [])
  | u :: us =>
    let r := ExecuteLogicaProgram execOk us
    match execOk u with
    | some t => ((u, t) :: r.1, r.2.1, u :: r.2.2)
    | none => (r.1, u :: r.2.1, u :: r.2.2)

/-- The demultiplexing loop of `Logica` (lines 167-169): for each requested
predicate in order, look its table up in `result_map` and push the binding;
a missing key raises `KeyError` at that predicate, keeping the bindings
pushed before it.  Returns the pushed bindings and the offending key, if
any. -/
def demux (m : List (String × String)) :
    List String → List (String × String) × Option String
  | [] => ([], none)
  | q :: qs =>
    match List.lookup q m with
    | none => ([], some q)
    | some t =>
      let r := demux m qs
      ((q, t) :: r.1, r.2)

/-- How one call of `Logica` terminates: normal return, the early `return`
of the `RuleCompileException` handler (lines 146-148), or an uncaught
`KeyError` from `result_map[predicate]` (line 168). -/
inductive Outcome where
  | ok : Outcome
  | compileError : String → Outcome
  | keyError : String → Outcome
deriving DecidableEq, Repr

/-- The body of the `for idx, predicate in enumerate(predicates):` loop of
`Logica` (lines 139-180), faithful to the source's indentation: for each
predicate in turn, compile it (a `RuleCompileException` returns from
`Logica` at once), append its execution unit to `executions`, push the
`<predicate>_sql` binding, then — still inside the loop — call
`concertina_lib.ExecuteLogicaProgram(executions)` on the units queued so
far and run the demultiplexing loop over the full predicate list, pushing
each predicate's result (a predicate absent from the map raises
`KeyError`).  `compile` is `program.FormattedPredicateSql` (`none` models
`RuleCompileException`), `execOk` gives each unit's execution result.
Returns the outcome, the bindings pushed to the session, and the trace of
executed units (with multiplicity, in order). -/
def LogicaGo (compile : String → Option String) (execOk : String → Option String)
    (allPreds : List String) :
    List String → List String → List (String × String) → List String →
    Outcome × List (String × String) × List String
  | [], _, pushed, tr => (Outcome.ok, pushed, tr)
  | p :: rest, execs, pushed, tr =>
    match compile p with
    | none => (Outcome.compileError p, pushed, tr)
    | some sql =>
      let execs2 := execs ++ [p]
      let pushed2 := pushed ++ [(p ++ "_sql", sql)]
      let res := ExecuteLogicaProgram execOk execs2
      let tr2 := tr ++ res.2.2
      let d := demux res.1 allPreds
      let pushed3 := pushed2 ++ d.1
      match d.2 with
      | some q => (Outcome.keyError q, pushed3, tr2)
      | none => LogicaGo compile execOk allPreds rest execs2 pushed3 tr2

/-- `Logica` (lines 123-180) after a successful parse of the cell, run on
an already-parsed list of requested predicate names. -/
def LogicaRun (compile : String → Option String) (execOk : String → Option String)
    (predicates : List String) :
    Outcome × List (String × String) × List String :=
  LogicaGo compile execOk predicates predicates [] [] []

/-- `Logica` (lines 123-180) on a raw magic line, as the source parses it. -/
def Logica (compile : String → Option String) (execOk : String → Option String)
    (line : String) :
    Outcome × List (String × String) × List String :=
  LogicaRun compile execOk (ParseList line)

/-- The operations of the module that touch (or could touch) the
module-level globals.  `Logica` reads the globals (through `TabBar`) but
never writes them in this version of the source — the `RunSQL` call inside
it is commented out (lines 161-164) — so its state transition is the
identity. -/
inductive Op where
  | setProject : String → Op
  | setDbConnection : Nat → Op
  | setTabulatedOutput : Bool → Op
  | ensureAuthenticatedUser : String → Op
  | runSQL : String → String → String → Op
  | logica : Op
deriving DecidableEq, Repr

/-- The state transition each module operation performs on the globals. -/
def stepOp : Op → GState → GState
  | Op.setProject p, st => SetProject p st
  | Op.setDbConnection c, st => SetDbConnection c st
  | Op.setTabulatedOutput b, st => SetTabulatedOutput b st
  | Op.ensureAuthenticatedUser i, st => (EnsureAuthenticatedUser i st).1
  | Op.runSQL i sql e, st => (RunSQL i sql e st).2.1
  | Op.logica, st => st

/-- A three-statement sqlite script (the statement unit of spec section 8,
joined back into one script). -/
def exSqlite3 : String :=
  "CREATE TABLE t(x); INSERT INTO t VALUES (1); SELECT * FROM t"

/-- A state with a database connection configured. -/
def connState : GState :=
  { PROJECT := none, DB_CONNECTION := some 0,
    USER_AUTHENTICATED := false, TABULATED_OUTPUT := true }

/-- A state in which the user has already authenticated. -/
def authState : GState :=
  { PROJECT := some "proj-a", DB_CONNECTION := none,
    USER_AUTHENTICATED := true, TABULATED_OUTPUT := true }

/-- A state with a project configured but not yet authenticated. -/
def projState : GState :=
  { PROJECT := some "proj-a", DB_CONNECTION := none,
    USER_AUTHENTICATED := false, TABULATED_OUTPUT := true }

/-- A script whose only semicolon sits inside a quoted string literal:
`SELECT 'a;b' FROM t` (built from characters so the quote is explicit). -/
def exQuoted : String :=
  String.mk (['S', 'E', 'L', 'E', 'C', 'T', ' ', quoteChar] ++
    ['a', ';', 'b', quoteChar, ' ', 'F', 'R', 'O', 'M', ' ', 't'])

/-- A compiler oracle for which predicate P1 compiles and P2 raises
`RuleCompileException`. -/
def compileFailP2 : String → Option String :=
  fun p => if p = "P1" then some "SELECT 1" else none

/-- A compiler oracle for which every predicate compiles (to a SQL string
identified by the predicate name). -/
def compileOk : String → Option String := fun p => some p

/-- An execution oracle for which every unit succeeds. -/
def execOkAll : String → Option String := fun u => some u

/-- An execution oracle for which exactly the unit of predicate B fails. -/
def execFailB : String → Option String :=
  fun u => if u = "B" then none else some u

end ColabLogica

namespace ColabLogica

theorem joinWith_cons (d : Char) (x : List Char) (ls : List (List Char))
    (h : ls ≠ []) : joinWith d (x :: ls) = x ++ d :: joinWith d ls := by
  cases ls with
  | nil => exact absurd rfl h
  | cons y ys => rfl

theorem splitRawAux_ne_nil (d : Char) (cs : List Char) :
    ∀ (inQ : Bool) (acc : List Char), splitRawAux d cs inQ acc ≠ [] := by
  induction cs with
  | nil => intro inQ acc; simp [splitRawAux]
  | cons c cs ih =>
    intro inQ acc
    simp only [splitRawAux]
    split
    · simp
    · split
      · exact ih _ _
      · exact ih _ _

theorem joinWith_splitRawAux (d : Char) (cs : List Char) :
    ∀ (inQ : Bool) (acc : List Char),
      joinWith d (splitRawAux d cs inQ acc) = acc.reverse ++ cs := by
  induction cs with
  | nil => intro inQ acc; simp [splitRawAux, joinWith]
  | cons c cs ih =>
    intro inQ acc
    simp only [splitRawAux]
    split
    · rename_i h1
      rw [joinWith_cons d _ _ (splitRawAux_ne_nil d cs false []), ih false []]
      simp [h1.2]
    · split
      · rw [ih]
        simp
      · rw [ih]
        simp

theorem length_splitRawAux (d : Char) (cs : List Char) :
    ∀ (inQ : Bool) (acc : List Char),
      (splitRawAux d cs inQ acc).length = topLevelCount d cs inQ + 1 := by
  induction cs with
  | nil => intro inQ acc; simp [splitRawAux, topLevelCount]
  | cons c cs ih =>
    intro inQ acc
    simp only [splitRawAux, topLevelCount]
    split
    · simp [ih false []]
    · split
      · exact ih _ _
      · exact ih _ _

theorem JoinStatements_map_mk (d : Char) : ∀ (ls : List (List Char)),
    JoinStatements d (ls.map String.mk) = String.mk (joinWith d ls)
  | [] => rfl
  | [_] => rfl
  | l :: l2 :: rest => by
    have ih := JoinStatements_map_mk d (l2 :: rest)
    simp only [List.map, JoinStatements, joinWith] at ih ⊢
    rw [ih]
    show String.mk (l ++ [d] ++ joinWith d (l2 :: rest)) = _
    rw [List.append_assoc]
    rfl

theorem JoinStatements_SplitRaw (s : String) (d : Char) :
    JoinStatements d (SplitRaw s d) = s := by
  rw [SplitRaw, JoinStatements_map_mk, joinWith_splitRawAux]
  rfl

theorem SplitRaw_ne_nil (s : String) (d : Char) : SplitRaw s d ≠ [] := by
  rw [SplitRaw]
  simp only [ne_eq, List.map_eq_nil_iff]
  exact splitRawAux_ne_nil d s.data false []

theorem SplitRaw_length (s : String) (d : Char) :
    (SplitRaw s d).length = topLevelCount d s.data false + 1 := by
  rw [SplitRaw, List.length_map, length_splitRawAux]

/-- Claim C9 counterexample: the claimed example output is wrong for the
splitter the sqlite branch relies on — splitting `SELECT 1; SELECT 2;` on
the semicolon yields the raw pieces `["SELECT 1", " SELECT 2", ""]` (no
whitespace trimming, and the trailing delimiter contributes a trailing
empty statement, which is exactly what makes `statements[-2]` the true
final query in `RunSQL`), not `["SELECT 1", "SELECT 2"]`. -/
theorem SplitRaw_claimed_example_false :
    ¬ (SplitRaw "SELECT 1; SELECT 2;" ';' = ["SELECT 1", "SELECT 2"]) := by
  decide

/-- Claim C9 (amended): for every input string and delimiter, concatenating
the returned sequence with the delimiter reproduces the input exactly (the
splitter performs no whitespace trimming); the returned sequence is never
empty; an input with no top-level delimiter occurrence yields a
one-element sequence; a delimiter inside a quoted string literal does not
split the statement; and `SELECT 1; SELECT 2;` splits into
`["SELECT 1", " SELECT 2", ""]`. -/
theorem SplitRaw_guarantees :
    (∀ (s : String) (d : Char), JoinStatements d (SplitRaw s d) = s) ∧
    (∀ (s : String) (d : Char), SplitRaw s d ≠ []) ∧
    (∀ (s : String) (d : Char), topLevelCount d s.data false = 0 →
      (SplitRaw s d).length = 1) ∧
    SplitRaw exQuoted ';' = [exQuoted] ∧
    SplitRaw "SELECT 1; SELECT 2;" ';' = ["SELECT 1", " SELECT 2", ""] := by
  refine ⟨JoinStatements_SplitRaw, SplitRaw_ne_nil, ?_, by decide, by decide⟩
  intro s d h
  rw [SplitRaw_length, h]

/-- Witness for C9's amended theorem: `SELECT 1` is a single-statement
script and splits into exactly one statement. -/
theorem SplitRaw_guarantees_witness :
    (SplitRaw "SELECT 1" ';').length = 1 :=
  SplitRaw_guarantees.2.2.1 "SELECT 1" ';' (by decide)

theorem execAll_some (c : Nat) (l : List String) :
    execAll (some c) l = (Except.ok (), l.map Event.connExec) := by
  induction l with
  | nil => rfl
  | cons s rest ih => simp [execAll, ih]

/-- Claim C1 counterexample: on the three-statement sqlite script, `RunSQL`
executes statement 1 for effect and returns the result of reading
statement 2 (the penultimate), but statement 3 — the last — is never
executed at all: it appears nowhere in the side-effect trace. -/
theorem sqlite_last_statement_not_run :
    (RunSQL "" exSqlite3 "sqlite" connState).1 =
      Except.ok " INSERT INTO t VALUES (1)" ∧
    (RunSQL "" exSqlite3 "sqlite" connState).2.2 =
      [Event.connExec "CREATE TABLE t(x)",
       Event.connRead " INSERT INTO t VALUES (1)"] ∧
    Event.connExec " SELECT * FROM t" ∉ (RunSQL "" exSqlite3 "sqlite" connState).2.2 ∧
    Event.connRead " SELECT * FROM t" ∉ (RunSQL "" exSqlite3 "sqlite" connState).2.2 := by
  refine ⟨rfl, rfl, by decide, by decide⟩

/-- Claim C1 (amended): for the sqlite engine with a configured connection,
`RunSQL` executes every statement of the split sequence except the last
two, in order, with their results discarded; the second-to-last
statement's result is the returned table; and the last statement is never
executed (it is dropped, not run for side effects). -/
theorem RunSQL_sqlite_penultimate (input sql : String) (st : GState) (c : Nat)
    (hc : st.DB_CONNECTION = some c)
    (hlen : 2 ≤ (SplitRaw sql ';').length) :
    RunSQL input sql "sqlite" st =
      (Except.ok ((SplitRaw sql ';').getD ((SplitRaw sql ';').length - 2) ""),
       st,
       ((SplitRaw sql ';').take ((SplitRaw sql ';').length - 2)).map Event.connExec
         ++ [Event.connRead
              ((SplitRaw sql ';').getD ((SplitRaw sql ';').length - 2) "")]) := by
  have h1 : ¬ (("sqlite" : String) = "bigquery") := by decide
  have h2 : ¬ (("sqlite" : String) = "psql") := by decide
  rw [RunSQL, if_neg h1, if_neg h2, if_pos rfl]
  simp only [sqliteRun, hc, execAll_some, readSql, if_pos hlen]

/-- Witness for C1's amended theorem at the three-statement script. -/
theorem RunSQL_sqlite_penultimate_witness :
    RunSQL "" exSqlite3 "sqlite" connState =
      (Except.ok ((SplitRaw exSqlite3 ';').getD ((SplitRaw exSqlite3 ';').length - 2) ""),
       connState,
       ((SplitRaw exSqlite3 ';').take ((SplitRaw exSqlite3 ';').length - 2)).map
           Event.connExec
         ++ [Event.connRead
              ((SplitRaw exSqlite3 ';').getD ((SplitRaw exSqlite3 ';').length - 2) "")]) :=
  RunSQL_sqlite_penultimate "" exSqlite3 connState 0 rfl (by decide)

/-- Claim C10: for every sqlite input whose split on the semicolon yields
fewer than two statements (in particular any single-statement script),
`RunSQL` raises `IndexError` when evaluating `statements[-2]`: no statement
is executed and no result is returned. -/
theorem RunSQL_sqlite_short_index_error (input sql : String) (st : GState)
    (h : (SplitRaw sql ';').length < 2) :
    RunSQL input sql "sqlite" st = (Except.error Err.indexError, st, []) := by
  have h1 : ¬ (("sqlite" : String) = "bigquery") := by decide
  have h2 : ¬ (("sqlite" : String) = "psql") := by decide
  have h0 : (SplitRaw sql ';').length - 2 = 0 := by omega
  rw [RunSQL, if_neg h1, if_neg h2, if_pos rfl]
  simp only [sqliteRun, h0, List.take_zero, execAll,
    if_neg (by omega : ¬ 2 ≤ (SplitRaw sql ';').length)]

/-- Witness for C10 at the single-statement script `SELECT 1`. -/
theorem RunSQL_sqlite_short_index_error_witness :
    RunSQL "" "SELECT 1" "sqlite" initState =
      (Except.error Err.indexError, initState, []) :=
  RunSQL_sqlite_short_index_error "" "SELECT 1" initState (by decide)

/-- Claim C4: for every engine value other than `bigquery`, `psql` and
`sqlite`, `RunSQL` fails with the unsupported-engine error whose message
names exactly the three supported backends, with the global state
unchanged and an empty side-effect trace: no authentication call and no
connection use happens. -/
theorem RunSQL_unsupported_engine (input sql engine : String) (st : GState)
    (h1 : engine ≠ "bigquery") (h2 : engine ≠ "psql") (h3 : engine ≠ "sqlite") :
    RunSQL input sql engine st =
      (Except.error (Err.unsupportedEngine
        "Logica only supports BigQuery, PostgreSQL and SQLite for now."), st, []) := by
  rw [RunSQL, if_neg h1, if_neg h2, if_neg h3]

/-- Witness for C4 at the engine value `unknown`. -/
theorem RunSQL_unsupported_engine_witness :
    RunSQL "" "SELECT 1" "unknown" initState =
      (Except.error (Err.unsupportedEngine
        "Logica only supports BigQuery, PostgreSQL and SQLite for now."),
       initState, []) :=
  RunSQL_unsupported_engine "" "SELECT 1" "unknown" initState
    (by decide) (by decide) (by decide)

/-- Claim C8: for the psql engine with no database connection configured,
`RunSQL` fails with the missing-connection error rather than executing the
statement: the side-effect trace is empty. -/
theorem RunSQL_psql_missing_connection (input sql : String) (st : GState)
    (h : st.DB_CONNECTION = none) :
    RunSQL input sql "psql" st = (Except.error Err.missingConnection, st, []) := by
  have h1 : ¬ (("psql" : String) = "bigquery") := by decide
  rw [RunSQL, if_neg h1, if_pos rfl]
  simp [readSql, h]

/-- Witness for C8 at the initial state, where no connection is set. -/
theorem RunSQL_psql_missing_connection_witness :
    RunSQL "" "SELECT 1" "psql" initState =
      (Except.error Err.missingConnection, initState, []) :=
  RunSQL_psql_missing_connection "" "SELECT 1" initState rfl

/-- Claim C6: the authentication gate is idempotent.  Starting from any
not-yet-authenticated state, the first call of `EnsureAuthenticatedUser`
performs exactly one handshake; it prompts for a project id exactly when no
project was previously configured; it sets the authenticated flag; the
stored project is the previously configured one, or the prompted value when
none was configured; and the second call returns at once with the stored
state unchanged and no side effects (so two calls perform exactly one
handshake and no re-prompt). -/
theorem EnsureAuthenticatedUser_idempotent (input1 input2 : String) (st : GState)
    (h : st.USER_AUTHENTICATED = false) :
    ((EnsureAuthenticatedUser input1 st).2).count Event.authHandshake = 1 ∧
    (Event.promptProject ∈ (EnsureAuthenticatedUser input1 st).2 ↔
      st.PROJECT = none) ∧
    (EnsureAuthenticatedUser input1 st).1.USER_AUTHENTICATED = true ∧
    (EnsureAuthenticatedUser input1 st).1.PROJECT =
      some (st.PROJECT.getD input1) ∧
    EnsureAuthenticatedUser input2 (EnsureAuthenticatedUser input1 st).1 =
      ((EnsureAuthenticatedUser input1 st).1, []) := by
  cases hp : st.PROJECT with
  | none =>
    have e1 : EnsureAuthenticatedUser input1 st =
        ({ st with PROJECT := some input1, USER_AUTHENTICATED := true },
         [Event.authHandshake, Event.promptProject]) := by
      simp [EnsureAuthenticatedUser, h, hp]
    rw [e1]
    refine ⟨by rfl, by simp [hp], rfl, by simp [hp], ?_⟩
    simp [EnsureAuthenticatedUser]
  | some p =>
    have e1 : EnsureAuthenticatedUser input1 st =
        ({ st with USER_AUTHENTICATED := true }, [Event.authHandshake]) := by
      simp [EnsureAuthenticatedUser, h, hp]
    rw [e1]
    refine ⟨by rfl, by simp [hp], rfl, by simp [hp], ?_⟩
    simp [EnsureAuthenticatedUser]

/-- Witness for C6: from a state with project `proj-a` configured, the
second call is a no-op returning the stored state. -/
theorem EnsureAuthenticatedUser_idempotent_witness :
    EnsureAuthenticatedUser "y" (EnsureAuthenticatedUser "x" projState).1 =
      ((EnsureAuthenticatedUser "x" projState).1, []) :=
  (EnsureAuthenticatedUser_idempotent "x" "y" projState rfl).2.2.2.2

theorem RunSQL_state_of_auth (input sql engine : String) (st : GState)
    (h : st.USER_AUTHENTICATED = true) :
    (RunSQL input sql engine st).2.1 = st := by
  rw [RunSQL]
  split_ifs
  · simp [EnsureAuthenticatedUser, h]
  · rfl
  · rfl
  · rfl

/-- Claim C7: the process-wide authentication flag never reverts.  No
operation of the module — `SetProject`, `SetDbConnection`,
`SetTabulatedOutput`, `EnsureAuthenticatedUser`, `RunSQL` or `Logica` —
ever sets `USER_AUTHENTICATED` back to false once it is true. -/
theorem USER_AUTHENTICATED_monotone (op : Op) (st : GState)
    (h : st.USER_AUTHENTICATED = true) :
    (stepOp op st).USER_AUTHENTICATED = true := by
  cases op with
  | setProject p => simpa [stepOp, SetProject] using h
  | setDbConnection c => simpa [stepOp, SetDbConnection] using h
  | setTabulatedOutput b => simpa [stepOp, SetTabulatedOutput] using h
  | ensureAuthenticatedUser i => simp [stepOp, EnsureAuthenticatedUser, h]
  | runSQL i sql e =>
    rw [stepOp, RunSQL_state_of_auth i sql e st h]
    exact h
  | logica => exact h

/-- Witness for C7: `SetProject` on an authenticated state keeps the flag. -/
theorem USER_AUTHENTICATED_monotone_witness :
    (stepOp (Op.setProject "p") authState).USER_AUTHENTICATED = true :=
  USER_AUTHENTICATED_monotone (Op.setProject "p") authState rfl

/-- Claim C2 (code-bug evidence): with two requested predicates where P2's
compilation fails (and P1 compiles and executes fine), the call does not
abort with nothing executed and an empty result map.  Because the queue
execution and the demultiplexing loop sit inside the compile loop, the
first iteration already executes the one-unit queue (trace `["P1"]`) and
binds P1's result, and the call then dies with a `KeyError` for P2 — P2's
compilation is never even attempted. -/
theorem Logica_compile_fail_not_clean :
    compileFailP2 "P2" = none ∧
    LogicaRun compileFailP2 execOkAll ["P1", "P2"] =
      (Outcome.keyError "P2", [("P1_sql", "SELECT 1"), ("P1", "P1")], ["P1"]) :=
  ⟨rfl, rfl⟩

/-- Claim C3 (code-bug evidence): the queue is not consumed as a single
staged pass after all predicates compile.  With two distinct predicates
that both compile and execute fine, iteration 0 already executes the
one-unit queue and the demultiplexing over both predicates dies with a
`KeyError` for P2 (trace `["P1"]`, not one pass `["P1", "P2"]`); and a
call that does succeed, the duplicated request `[P1, P1]`, executes unit
P1 three times (once at iteration 0, twice at iteration 1, since each
iteration re-executes the whole queue built so far). -/
theorem Logica_queue_not_single_pass :
    LogicaRun compileOk execOkAll ["P1", "P2"] =
      (Outcome.keyError "P2", [("P1_sql", "P1"), ("P1", "P1")], ["P1"]) ∧
    (LogicaRun compileOk execOkAll ["P1", "P1"]).1 = Outcome.ok ∧
    (LogicaRun compileOk execOkAll ["P1", "P1"]).2.2 = ["P1", "P1", "P1"] :=
  ⟨rfl, rfl, rfl⟩

theorem ExecuteLogicaProgram_all_ok (execOk : String → Option String)
    (units : List String) (h : ∀ u ∈ units, (execOk u).isSome) :
    (ExecuteLogicaProgram execOk units).1.map Prod.fst = units ∧
    (ExecuteLogicaProgram execOk units).2.1 = [] ∧
    (ExecuteLogicaProgram execOk units).2.2 = units := by
  induction units with
  | nil => exact ⟨rfl, rfl, rfl⟩
  | cons u us ih =>
    obtain ⟨t, ht⟩ := Option.isSome_iff_exists.mp (h u (by simp))
    have ih2 := ih (fun v hv => h v (by simp [hv]))
    simp only [ExecuteLogicaProgram, ht]
    exact ⟨by simp [ih2.1], by simp [ih2.2.1], by simp [ih2.2.2]⟩

/-- Claim C5: per-predicate execution failure is non-fatal to siblings.
If, among the queued execution units, exactly the unit of predicate `i`
fails while every other unit succeeds, then the queue executor still
executes every unit in order (the trace is the whole queue), the returned
result map covers every requested predicate except `i`, and `i` is the one
entry of the per-predicate error set. -/
theorem ExecuteLogicaProgram_partial_failure (execOk : String → Option String)
    (i : String) (hfail : execOk i = none) :
    ∀ (units : List String), i ∈ units → units.Nodup →
    (∀ u ∈ units, u ≠ i → (execOk u).isSome) →
    (ExecuteLogicaProgram execOk units).2.2 = units ∧
    (ExecuteLogicaProgram execOk units).2.1 = [i] ∧
    (ExecuteLogicaProgram execOk units).1.map Prod.fst =
      units.filter (fun u => u != i) := by
  intro units
  induction units with
  | nil => intro hmem; cases hmem
  | cons u us ih =>
    intro hmem hnd hok
    by_cases hu : u = i
    · subst hu
      have hnin : u ∉ us := (List.nodup_cons.mp hnd).1
      have hall : ∀ v ∈ us, (execOk v).isSome := by
        intro v hv
        exact hok v (by simp [hv]) (fun hvi => hnin (hvi ▸ hv))
      have hrest := ExecuteLogicaProgram_all_ok execOk us hall
      have hfilter : us.filter (fun v => v != u) = us := by
        apply List.filter_eq_self.mpr
        intro v hv
        simp only [bne_iff_ne, ne_eq]
        exact fun hvi => hnin (hvi ▸ hv)
      simp only [ExecuteLogicaProgram, hfail]
      refine ⟨by simp [hrest.2.2], by simp [hrest.2.1], ?_⟩
      simp [List.filter_cons, bne_self_eq_false, hfilter, hrest.1]
    · have hmem2 : i ∈ us := by
        rcases List.mem_cons.mp hmem with h | h
        · exact absurd h.symm hu
        · exact h
      obtain ⟨t, ht⟩ := Option.isSome_iff_exists.mp (hok u (by simp) hu)
      have ih2 := ih hmem2 (List.nodup_cons.mp hnd).2
        (fun v hv hvi => hok v (by simp [hv]) hvi)
      simp only [ExecuteLogicaProgram, ht]
      refine ⟨by simp [ih2.1], by simp [ih2.2.1], ?_⟩
      simp only [List.filter_cons, List.map_cons, ih2.2.2]
      simp [bne_iff_ne, hu]

/-- Witness for C5: of the three queued units A, B, C with B failing, all
three are executed, the map covers A and C, and the error set is `[B]`. -/
theorem ExecuteLogicaProgram_partial_failure_witness :
    (ExecuteLogicaProgram execFailB ["A", "B", "C"]).2.2 = ["A", "B", "C"] ∧
    (ExecuteLogicaProgram execFailB ["A", "B", "C"]).2.1 = ["B"] ∧
    (ExecuteLogicaProgram execFailB ["A", "B", "C"]).1.map Prod.fst = ["A", "C"] := by
  have h := ExecuteLogicaProgram_partial_failure execFailB "B" rfl
    ["A", "B", "C"] (by decide) (by decide) (by decide)
  refine ⟨h.1, h.2.1, ?_⟩
  rw [h.2.2]
  rfl

end ColabLogica
